import Mathlib

/-!
Shallow embedding of `src/GetHearthstoneData/__init__.py`, the scheduled
data-refresh job of the hsreplay-azure-function repository.

Modelling conventions:
* JSON dictionaries for cards and trinket stats become Lean structures whose
  fields are `Option`-valued exactly where the Python code accesses them with
  `dict.get` (absent key ⇒ `none`).
* Python floats are modelled as rationals (`Rat`).
* The external world (the cache blob, the two remote HTTP endpoints) is an
  explicit `Env` value; a loader/driver call returns its result together with
  an effect log (number of remote catalog fetches, payloads written to the
  cache blob).
* A Python dict built by comprehension keeps insertion order with last-wins
  overwrite; `card_map` is modelled by the filtered card list plus lookup
  functions (`map_get` takes the last matching entry, as later comprehension
  entries overwrite earlier ones).
* Python's `str.replace` and stable `sorted` are modelled by structurally
  recursive Lean functions (`py_replace`, insertion sort), which agree with
  the CPython semantics: left-to-right non-overlapping replacement, and the
  unique stable ascending ordering.
-/

namespace HS

/-- A card record of the remote catalog (`cards.json`): only the fields the
job reads are modelled; each is optional because the code accesses them with
`'dbfId' in card` / `card.get(...)`. -/
structure Card where
  dbfId : Option Int
  name : Option String
  text : Option String
  deriving Repr, DecidableEq

/-- A trinket statistics record from the HSReplay API, with exactly the keys
read by `main` (all read via `.get`, hence optional; `avg_final_placement`
is used as the sort key, the code reads it with `.get` and sorts on it). -/
structure Stat where
  trinket_dbf_id : Option Int
  avg_final_placement : Rat
  pick_rate : Option Rat
  tier : Option String
  group : Option Int
  final_placement_distribution : Option (List Rat)
  deriving Repr, DecidableEq

/-- Models `card_map = {card['dbfId']: card for card in card_data if 'dbfId' in card}`:
the dict is modelled by the insertion-ordered list of cards that carry a
`dbfId`. -/
def build_card_map (card_data : List Card) : List Card :=
  card_data.filter (fun c => c.dbfId.isSome)

/-- Python dict membership `dbf_id in card_map`. A `None` join key is never a
key of the map (all keys are the integers `card['dbfId']`). -/
def map_mem (m : List Card) (id : Option Int) : Bool :=
  match id with
  | none => false
  | some i => m.any (fun c => c.dbfId = some i)

/-- Python `card_map.get(dbf_id)`: the last card with the given `dbfId`
(comprehension builds the dict with later duplicates overwriting earlier
ones); `None` when the key is absent or the join key itself is `None`. -/
def map_get (m : List Card) (id : Option Int) : Option Card :=
  match id with
  | none => none
  | some i => (m.filter (fun c => c.dbfId = some i)).getLast?

/-- State of the `cards_zhCN.json` cache blob: absent, present but failing to
download/parse, or present with a parsed card list. -/
inductive CacheState
  | absent
  | corrupt
  | valid (cards : List Card)
  deriving Repr, DecidableEq

/-- Models `blob_client.exists()`. -/
def cache_exists : CacheState → Bool
  | CacheState.absent => false
  | _ => true

/-- The `download_blob` + `json.loads` attempt: `some` on success, `none`
when the `try` block raises (absent handled before; corrupt content). -/
def read_cache : CacheState → Option (List Card)
  | CacheState.valid cards => some cards
  | _ => none

/-- The upstream world a single run observes: cache blob state, the remote
card catalog endpoint (`none` = `requests` exception) and the HSReplay stats
endpoint (`none` = `requests` exception). -/
structure Env where
  cache : CacheState
  remote : Option (List Card)
  stats : Option (List Stat)
  deriving Repr, DecidableEq

/-- Result of one call to the catalog loader, together with its effect log:
how many remote catalog fetches were issued and which payloads were written
(overwritten) to the cache blob. -/
structure LoadResult where
  card_map : Option (List Card)
  was_updated : Bool
  remote_fetches : Nat
  cache_writes : List (List Card)
  deriving Repr, DecidableEq

/-- The remote-fetch tail of `get_card_data_and_map` (lines 35-48): one
`requests.get`; on success the raw payload is uploaded back to the cache
blob with `overwrite=True` and `(card_map, True)` is returned; on a request
exception `(None, False)` is returned. -/
def fetch_remote_and_cache (env : Env) : LoadResult :=
  match env.remote with
  | some card_data =>
      { card_map := some (build_card_map card_data)
        was_updated := true
        remote_fetches := 1
        cache_writes := [card_data] }
  | none =>
      { card_map := none
        was_updated := false
        remote_fetches := 1
        cache_writes := [] }

/-- Models `get_card_data_and_map(blob_service_client, force_update)` (lines 17-48):
when not forced and the cache blob exists, try to read and parse it and
return `(card_map, False)` with no remote fetch; on a read/parse failure
fall through to the remote fetch; otherwise fetch remotely. -/
def get_card_data_and_map (env : Env) (force_update : Bool) : LoadResult :=
  if !force_update && cache_exists env.cache then
    match read_cache env.cache with
    | some card_data =>
        { card_map := some (build_card_map card_data)
          was_updated := false
          remote_fetches := 0
          cache_writes := [] }
    | none => fetch_remote_and_cache env
  else fetch_remote_and_cache env

/-- Left-to-right, non-overlapping literal replacement on character lists
(the semantics of CPython `str.replace` for a non-empty pattern), with the
list length as structural fuel (each step consumes at least one character).
The empty-pattern case (never used by this program) leaves the string
unchanged. -/
def replace_fuel (pat rep : List Char) : Nat → List Char → List Char
  | _, [] => []
  | 0, s => s
  | fuel + 1, c :: rest =>
      if pat ≠ [] ∧ pat.isPrefixOf (c :: rest) then
        rep ++ replace_fuel pat rep fuel ((c :: rest).drop pat.length)
      else
        c :: replace_fuel pat rep fuel rest

/-- Python `s.replace(pat, rep)` for a non-empty literal pattern. -/
def py_replace (s pat rep : String) : String :=
  String.mk (replace_fuel pat.data rep.data s.data.length s.data)

/-- Python `s.upper()` (the tier strings are ASCII letter grades, where
CPython and `Char.toUpper` agree). -/
def py_upper (s : String) : String :=
  String.mk (s.data.map Char.toUpper)

/-- The markup-stripping chain of line 108: `\\n` (a literal backslash-n,
escaped in the Python source) to a space first, then the four tags each to
the empty string, as chained `str.replace` calls. -/
def clean_text (s : String) : String :=
  py_replace (py_replace (py_replace (py_replace (py_replace s "\\n" " ") "<b>" "") "</b>" "") "<i>" "") "</i>" ""

/-- Round the fraction `n / d` (with `d > 0`) to the nearest integer, ties
to even, computed on integers: with euclidean quotient `q` and remainder `r`
(so `0 ≤ r < d`), the fraction part `r / d` is compared with `1/2` by
comparing `2 * r` with `d`. This is the rounding CPython `format(x, '.2f')`
applies (floats are modelled as rationals; on the exactly-representable
values evaluated here the two agree). -/
def round_half_even (n : Int) (d : Nat) : Int :=
  let q : Int := n / (d : Int)
  let r : Int := n % (d : Int)
  if 2 * r < (d : Int) then q
  else if (d : Int) < 2 * r then q + 1
  else if q % 2 = 0 then q else q + 1

/-- Two-digit zero-padded decimal rendering of a fraction part. -/
def pad2 (n : Nat) : String :=
  if n < 10 then "0" ++ toString n else toString n

/-- Python `f"{x:.2f}"` on the rational model of a float: round `100 * x`
half-to-even and print with exactly two digits after the decimal point
(`x = x.num / x.den` in lowest terms with positive denominator, so
`100 * x = (x.num * 100) / x.den`). -/
def format2 (x : Rat) : String :=
  let c : Int := round_half_even (x.num * 100) x.den
  if c < 0 then
    "-" ++ toString ((-c) / 100) ++ "." ++ pad2 ((-c % 100).toNat)
  else
    toString (c / 100) ++ "." ++ pad2 ((c % 100).toNat)

/-- Models `f"{i+1}st"`: the literal (non-grammatical) ordinal label of line 101. -/
def placement_label (i : Nat) : String :=
  toString (i + 1) ++ "st"

/-- Models `{f"{i+1}st": val for i, val in enumerate(trinket.get("final_placement_distribution", []))}`
as an insertion-ordered key/value list. -/
def make_placement_dist (dist : List Rat) : List (String × Rat) :=
  dist.enum.map (fun p => (placement_label p.1, p.2))

/-- One output record (`combined_data` of lines 102-111). -/
structure ProcessedTrinket where
  name : Option String
  avg_placement : Rat
  pick_rate : String
  tier : String
  group : Option Int
  text : String
  placement_dist : List (String × Rat)
  dbf_id : Option Int
  deriving Repr, DecidableEq

/-- Build `combined_data` from a matched card/stat pair (lines 101-111). -/
def combine (card_info : Card) (trinket : Stat) : ProcessedTrinket :=
  { name := card_info.name
    avg_placement := trinket.avg_final_placement
    pick_rate := format2 (trinket.pick_rate.getD 0) ++ "%"
    tier := py_upper (trinket.tier.getD "N/A")
    group := trinket.group
    text := clean_text (card_info.text.getD "")
    placement_dist := make_placement_dist (trinket.final_placement_distribution.getD [])
    dbf_id := trinket.trinket_dbf_id }

/-- The join loop of lines 95-114: records whose join key finds a (truthy)
card are transformed and appended; the others are skipped with a warning.
Every card stored in the map carries at least its `dbfId` key, so a found
`card_info` dict is never empty, hence never falsy. -/
def process_trinkets (card_map : List Card) (stats : List Stat) : List ProcessedTrinket :=
  stats.filterMap (fun t => (map_get card_map t.trinket_dbf_id).map (fun c => combine c t))

/-- The comparison `sorted` uses: ascending `avg_placement`. -/
def by_avg (a b : ProcessedTrinket) : Prop :=
  a.avg_placement ≤ b.avg_placement

instance : DecidableRel by_avg :=
  fun a b => inferInstanceAs (Decidable (a.avg_placement ≤ b.avg_placement))

instance : IsTotal ProcessedTrinket by_avg :=
  ⟨fun a b => le_total a.avg_placement b.avg_placement⟩

instance : IsTrans ProcessedTrinket by_avg :=
  ⟨fun _ _ _ h h' => le_trans h h'⟩

/-- Models `sorted(processed_trinkets, key=lambda x: x["avg_placement"])` (line
116): CPython's sort is stable, so its result is the unique stable ascending
ordering, which insertion sort by `≤` on the key also produces. -/
def sort_trinkets (l : List ProcessedTrinket) : List ProcessedTrinket :=
  l.insertionSort by_avg

/-- The distinct exits of `main` (after configuration and storage connection,
which are external collaborators): each error constructor corresponds to one
`func.HttpResponse(..., status_code=500)` return site. -/
inductive Outcome
  | card_fetch_failed
  | stats_fetch_failed
  | forced_update_failed
  | success (output : List ProcessedTrinket)
  deriving Repr, DecidableEq

/-- Outcome of a run together with the accumulated effect log and the number
of forced (`force_update=True`) loader invocations. -/
structure RunResult where
  outcome : Outcome
  remote_fetches : Nat
  forced_loads : Nat
  cache_writes : List (List Card)
  deriving Repr, DecidableEq

/-- Python truthiness of the loader's first return value: `None` and the
empty dict are both falsy (`if not card_map`). -/
def falsy_map : Option (List Card) → Bool
  | none => true
  | some m => m.isEmpty

/-- The body of `main` (lines 80-127) after configuration/connection: load
the catalog unforced, fail on a falsy map; fetch stats, fail on a falsy
(`None` or empty) list; force-reload the catalog when some join key is
missing and the catalog was not already freshly fetched, failing when the
forced load is falsy; join, transform, sort, persist. -/
def main (env : Env) : RunResult :=
  let r1 := get_card_data_and_map env false
  if falsy_map r1.card_map then
    { outcome := Outcome.card_fetch_failed
      remote_fetches := r1.remote_fetches
      forced_loads := 0
      cache_writes := r1.cache_writes }
  else
    match env.stats with
    | none =>
        { outcome := Outcome.stats_fetch_failed
          remote_fetches := r1.remote_fetches
          forced_loads := 0
          cache_writes := r1.cache_writes }
    | some trinket_stats =>
        if trinket_stats.isEmpty then
          { outcome := Outcome.stats_fetch_failed
            remote_fetches := r1.remote_fetches
            forced_loads := 0
            cache_writes := r1.cache_writes }
        else
          let m1 := r1.card_map.getD []
          if trinket_stats.any (fun t => !(map_mem m1 t.trinket_dbf_id)) && !r1.was_updated then
            let r2 := get_card_data_and_map env true
            if falsy_map r2.card_map then
              { outcome := Outcome.forced_update_failed
                remote_fetches := r1.remote_fetches + r2.remote_fetches
                forced_loads := 1
                cache_writes := r1.cache_writes ++ r2.cache_writes }
            else
              { outcome := Outcome.success (sort_trinkets (process_trinkets (r2.card_map.getD []) trinket_stats))
                remote_fetches := r1.remote_fetches + r2.remote_fetches
                forced_loads := 1
                cache_writes := r1.cache_writes ++ r2.cache_writes }
          else
            { outcome := Outcome.success (sort_trinkets (process_trinkets m1 trinket_stats))
              remote_fetches := r1.remote_fetches
              forced_loads := 0
              cache_writes := r1.cache_writes }

/-! ### Concrete records used by witnesses -/

/-- The catalog card of the spec's end-to-end scenario. -/
def cardThing : Card :=
  { dbfId := some 100, name := some "Thing", text := some "A" }

/-- A second catalog card, only present in the remote catalog in some
scenarios. -/
def cardOther : Card :=
  { dbfId := some 200, name := some "Other", text := none }

/-- A card record lacking a `dbfId`, filtered out of every card map. -/
def cardNoDbf : Card :=
  { dbfId := none, name := some "Broken", text := none }

/-- The stat record of the spec's end-to-end scenario (joins to
`cardThing`). -/
def statThing : Stat :=
  { trinket_dbf_id := some 100
    avg_final_placement := Rat.divInt 23 10
    pick_rate := some 10
    tier := some "a"
    group := some 1
    final_placement_distribution := some [1, 2] }

/-- A stat record whose join key `200` is only in the remote catalog. -/
def statOther : Stat :=
  { trinket_dbf_id := some 200
    avg_final_placement := Rat.divInt 3 1
    pick_rate := some 5
    tier := some "c"
    group := some 2
    final_placement_distribution := some [] }

/-- A stat record whose join key `999` is in no catalog at all. -/
def statGhost : Stat :=
  { trinket_dbf_id := some 999
    avg_final_placement := Rat.divInt 1 1
    pick_rate := some 0
    tier := none
    group := none
    final_placement_distribution := some [] }

/-- A stat record carrying the placement distribution `[10, 20, 5]` of the
spec's placement-label example. -/
def statDist : Stat :=
  { trinket_dbf_id := some 100
    avg_final_placement := Rat.divInt 23 10
    pick_rate := some 10
    tier := some "a"
    group := some 1
    final_placement_distribution := some [10, 20, 5] }

/-- Environment of the end-to-end scenario: valid cache, remote catalog
available, one matching stat record. -/
def envBase : Env :=
  { cache := CacheState.valid [cardThing]
    remote := some [cardThing, cardOther]
    stats := some [statThing] }

/-! ### Helper lemmas -/

/-- The literal `(42.5 : Rat)` in kernel-reducible form. -/
theorem rat_fortytwo_half : (42.5 : Rat) = Rat.divInt 85 2 := by
  rw [Rat.divInt_eq_div]; norm_num

/-- Two-digit printing: `pad2 n` has length two for every fraction part
`n < 100`. -/
theorem pad2_length : ∀ n : Nat, n < 100 → (pad2 n).length = 2 := by decide

/-- The remainder fed to `pad2` inside `format2` is always `< 100`. -/
theorem emod_hundred_toNat_lt (c : Int) : (c % 100).toNat < 100 := by
  have h1 : 0 ≤ c % 100 := Int.emod_nonneg c (by decide)
  have h2 : c % 100 < 100 := Int.emod_lt_of_pos c (by decide)
  omega

/-- The renderer `format2` always produces results of shape `⟨integer part⟩.⟨two digits⟩`. -/
theorem format2_shape (x : Rat) :
    ∃ a b : String, format2 x = a ++ "." ++ b ∧ b.length = 2 := by
  unfold format2
  by_cases hc : round_half_even (x.num * 100) x.den < 0
  · exact ⟨"-" ++ toString (-round_half_even (x.num * 100) x.den / 100),
      pad2 ((-round_half_even (x.num * 100) x.den % 100).toNat),
      by rw [if_pos hc], pad2_length _ (emod_hundred_toNat_lt _)⟩
  · exact ⟨toString (round_half_even (x.num * 100) x.den / 100),
      pad2 ((round_half_even (x.num * 100) x.den % 100).toNat),
      by rw [if_neg hc], pad2_length _ (emod_hundred_toNat_lt _)⟩

/-- The entries of `make_placement_dist` by position. -/
theorem make_placement_dist_getElem (dist : List Rat) (i : Nat)
    (h : i < dist.length) :
    (make_placement_dist dist)[i]? =
      some (toString (i + 1) ++ "st", dist.get ⟨i, h⟩) := by
  unfold make_placement_dist placement_label
  rw [List.enum_eq_enumFrom, List.getElem?_map, List.getElem?_enumFrom,
    List.getElem?_eq_getElem h]
  simp [Nat.zero_add, List.get_eq_getElem]

/-- Membership in the join output: exactly the stat records whose key finds
a card, transformed by `combine`. -/
theorem mem_process_trinkets (m : List Card) (ss : List Stat)
    (p : ProcessedTrinket) :
    p ∈ process_trinkets m ss ↔
      ∃ t ∈ ss, ∃ c, map_get m t.trinket_dbf_id = some c ∧ p = combine c t := by
  unfold process_trinkets
  rw [List.mem_filterMap]
  constructor
  · rintro ⟨t, ht, he⟩
    cases hc : map_get m t.trinket_dbf_id with
    | none => rw [hc] at he; simp at he
    | some c =>
        rw [hc] at he
        simp only [Option.map_some'] at he
        exact ⟨t, ht, c, hc, (Option.some.inj he).symm⟩
  · rintro ⟨t, ht, c, hc, rfl⟩
    exact ⟨t, ht, by rw [hc]; rfl⟩

/-- The sort step permutes the join output, so it has the same members. -/
theorem mem_sort_trinkets (l : List ProcessedTrinket) (p : ProcessedTrinket) :
    p ∈ sort_trinkets l ↔ p ∈ l :=
  List.mem_insertionSort by_avg

/-- The sort step produces a `by_avg`-sorted list. -/
theorem sort_trinkets_sorted (l : List ProcessedTrinket) :
    (sort_trinkets l).Pairwise by_avg :=
  List.sorted_insertionSort by_avg l

@[simp] theorem falsy_map_none : falsy_map none = true := rfl

@[simp] theorem falsy_map_some (m : List Card) :
    falsy_map (some m) = m.isEmpty := rfl

/-- A forced loader call always issues exactly one remote fetch. -/
theorem forced_load_fetches_once (env : Env) :
    (get_card_data_and_map env true).remote_fetches = 1 := by
  unfold get_card_data_and_map fetch_remote_and_cache
  cases h : env.remote <;> simp [h]

/-- Every loader call either hits the cache (returning the cached catalog,
`was_updated = false`, no remote fetch, no write) or performs the
remote-fetch tail. -/
theorem get_card_data_and_map_cases (env : Env) (fu : Bool) :
    (∃ cd, read_cache env.cache = some cd ∧
        get_card_data_and_map env fu =
          { card_map := some (build_card_map cd), was_updated := false,
            remote_fetches := 0, cache_writes := [] })
    ∨ get_card_data_and_map env fu = fetch_remote_and_cache env := by
  unfold get_card_data_and_map
  cases hce : !fu && cache_exists env.cache with
  | false => exact Or.inr (by simp)
  | true =>
      cases hr : read_cache env.cache with
      | none => exact Or.inr (by simp)
      | some cd => exact Or.inl ⟨cd, rfl, by simp⟩

/-- A result with `was_updated = true` only ever comes out of the remote-fetch path, which
issues exactly one remote fetch. -/
theorem was_updated_imp_one_fetch (env : Env) (fu : Bool)
    (h : (get_card_data_and_map env fu).was_updated = true) :
    (get_card_data_and_map env fu).remote_fetches = 1 := by
  rcases get_card_data_and_map_cases env fu with ⟨cd, _, heq⟩ | heq
  · rw [heq] at h; simp at h
  · rw [heq] at h ⊢
    unfold fetch_remote_and_cache at h ⊢
    cases he : env.remote <;> rw [he] at h <;> simp at h ⊢

/-! ### Claim theorems -/

/-- C4: with `forceUpdate = false` and an existing, successfully parsed
cache blob, the loader returns the catalog built from the cached payload
together with `was_updated = false`, performs no remote fetch
(`remote_fetches = 0`) and writes nothing back. -/
theorem cache_hit_no_remote (env : Env) (cards : List Card)
    (h : env.cache = CacheState.valid cards) :
    get_card_data_and_map env false =
      { card_map := some (build_card_map cards), was_updated := false,
        remote_fetches := 0, cache_writes := [] } := by
  unfold get_card_data_and_map
  rw [h]
  simp [cache_exists, read_cache]

/-- C4 witness: the end-to-end environment has a valid cache blob, and the
unforced load returns it without touching the remote source. -/
theorem cache_hit_no_remote_witness :
    get_card_data_and_map envBase false =
      { card_map := some (build_card_map [cardThing]), was_updated := false,
        remote_fetches := 0, cache_writes := [] } :=
  cache_hit_no_remote envBase [cardThing] rfl

/-- C5: when the cache is absent, the load is forced, or the cache
read/parse failed, the cache failure does not fail the load: the loader
issues exactly one remote fetch; on success it writes the fetched payload
back to the cache blob and returns `(catalog, true)`, on remote failure it
returns `(null, false)`. -/
theorem cache_miss_remote_fetch (env : Env) (fu : Bool)
    (h : fu = true ∨ env.cache = CacheState.absent ∨
      env.cache = CacheState.corrupt) :
    (∀ d, env.remote = some d →
        get_card_data_and_map env fu =
          { card_map := some (build_card_map d), was_updated := true,
            remote_fetches := 1, cache_writes := [d] })
    ∧ (env.remote = none →
        get_card_data_and_map env fu =
          { card_map := none, was_updated := false,
            remote_fetches := 1, cache_writes := [] }) := by
  have hfetch : get_card_data_and_map env fu = fetch_remote_and_cache env := by
    unfold get_card_data_and_map
    rcases h with rfl | hc | hc
    · simp
    · rw [hc]; simp [cache_exists]
    · rw [hc]
      cases hfu : fu <;> simp [cache_exists, read_cache]
  constructor
  · intro d hd
    rw [hfetch]
    unfold fetch_remote_and_cache
    rw [hd]
  · intro hd
    rw [hfetch]
    unfold fetch_remote_and_cache
    rw [hd]

/-- C5 witness: with a corrupt cache blob and an available remote catalog,
the unforced load falls through to exactly one remote fetch, writes the
payload back, and reports `was_updated = true`. -/
theorem cache_miss_remote_fetch_witness :
    get_card_data_and_map
        { cache := CacheState.corrupt, remote := some [cardThing, cardOther],
          stats := some [statThing] } false =
      { card_map := some (build_card_map [cardThing, cardOther]),
        was_updated := true, remote_fetches := 1,
        cache_writes := [[cardThing, cardOther]] } :=
  (cache_miss_remote_fetch
    { cache := CacheState.corrupt, remote := some [cardThing, cardOther],
      stats := some [statThing] } false
    (Or.inr (Or.inr rfl))).1 [cardThing, cardOther] rfl

/-- C2 counterexample: the claimed mapping for distribution `[10, 20, 5]`
uses grammatical ordinals `"2nd"`/`"3rd"`, but the code's literal
`f"{i+1}st"` labels give `"2st"`/`"3st"`, so the transform does not produce
the claimed mapping. -/
theorem placement_dist_example_cx :
    (combine cardThing statDist).placement_dist ≠
      [("1st", 10), ("2nd", 20), ("3rd", 5)] := by decide

/-- C2 amended: for a stat record with final placement distribution
`[10, 20, 5]`, the transform produces the placement mapping
`[("1st", 10), ("2st", 20), ("3st", 5)]` (literal suffix scheme). -/
theorem placement_dist_example (c : Card) (s : Stat)
    (h : s.final_placement_distribution = some [10, 20, 5]) :
    (combine c s).placement_dist = [("1st", 10), ("2st", 20), ("3st", 5)] := by
  show make_placement_dist (s.final_placement_distribution.getD []) = _
  rw [h]
  decide

/-- C2 witness: the amended mapping at the concrete record `statDist`. -/
theorem placement_dist_example_witness :
    (combine cardThing statDist).placement_dist =
      [("1st", 10), ("2st", 20), ("3st", 5)] :=
  placement_dist_example cardThing statDist rfl

/-- C3: for every stat record and every index `i` into its final placement
distribution, the `placement_dist` entry at position `i` is keyed by the
literal string `toString (i+1) ++ "st"` (so index 1 yields `"2st"`, not a
grammatical ordinal) and carries the distribution value at `i`. -/
theorem placement_label_literal (c : Card) (s : Stat) (i : Nat)
    (h : i < (s.final_placement_distribution.getD []).length) :
    ((combine c s).placement_dist)[i]? =
      some (toString (i + 1) ++ "st",
        (s.final_placement_distribution.getD []).get ⟨i, h⟩) := by
  show (make_placement_dist (s.final_placement_distribution.getD []))[i]? = _
  exact make_placement_dist_getElem _ i h

/-- C3 witness: at `statDist` (distribution `[10, 20, 5]`), index 1 is keyed
`"2st"` with value `20`. -/
theorem placement_label_literal_witness :
    ((combine cardThing statDist).placement_dist)[1]? = some ("2st", 20) := by
  rw [placement_label_literal cardThing statDist 1 (by decide)]
  decide

/-- C7: the per-pair field transforms — `pick_rate` is rendered with exactly
two digits after the decimal point and a trailing `%` (and `42.5` becomes
`"42.50%"`), `tier` is upper-cased (`"b"` becomes `"B"`), and the card text
has the literal `\\n` replaced by a space and the four markup tags removed
(`"Hello\\n<b>World</b>"` becomes `"Hello World"`). -/
theorem field_transforms :
    (∀ (c : Card) (s : Stat), ∃ a b : String,
        (combine c s).pick_rate = a ++ "." ++ b ++ "%" ∧ b.length = 2)
    ∧ (∀ (c : Card) (s : Stat), s.pick_rate = some 42.5 →
        (combine c s).pick_rate = "42.50%")
    ∧ (∀ (c : Card) (s : Stat), s.tier = some "b" →
        (combine c s).tier = "B")
    ∧ (∀ (c : Card) (s : Stat), c.text = some "Hello\\n<b>World</b>" →
        (combine c s).text = "Hello World") := by
  refine ⟨fun c s => ?_, fun c s h => ?_, fun c s h => ?_, fun c s h => ?_⟩
  · obtain ⟨a, b, hab, hb⟩ := format2_shape (s.pick_rate.getD 0)
    exact ⟨a, b, by show format2 (s.pick_rate.getD 0) ++ "%" = _; rw [hab], hb⟩
  · show format2 (s.pick_rate.getD 0) ++ "%" = "42.50%"
    rw [h]
    show format2 (42.5 : Rat) ++ "%" = "42.50%"
    rw [rat_fortytwo_half]
    decide
  · show py_upper (s.tier.getD "N/A") = "B"
    rw [h]
    decide
  · show clean_text (c.text.getD "") = "Hello World"
    rw [h]
    decide

/-- C7 witness: the three concrete transforms at a record with
`pick_rate = 42.5`, `tier = "b"` and text `"Hello\\n<b>World</b>"`. -/
theorem field_transforms_witness :
    (combine
        { dbfId := some 1, name := some "W", text := some "Hello\\n<b>World</b>" }
        { trinket_dbf_id := some 1, avg_final_placement := Rat.divInt 4 1,
          pick_rate := some 42.5, tier := some "b", group := some 1,
          final_placement_distribution := some [] }).pick_rate = "42.50%"
    ∧ (combine
        { dbfId := some 1, name := some "W", text := some "Hello\\n<b>World</b>" }
        { trinket_dbf_id := some 1, avg_final_placement := Rat.divInt 4 1,
          pick_rate := some 42.5, tier := some "b", group := some 1,
          final_placement_distribution := some [] }).tier = "B"
    ∧ (combine
        { dbfId := some 1, name := some "W", text := some "Hello\\n<b>World</b>" }
        { trinket_dbf_id := some 1, avg_final_placement := Rat.divInt 4 1,
          pick_rate := some 42.5, tier := some "b", group := some 1,
          final_placement_distribution := some [] }).text = "Hello World" :=
  ⟨field_transforms.2.1 _ _ rfl, field_transforms.2.2.1 _ _ rfl,
    field_transforms.2.2.2 _ _ rfl⟩

/-- C1: once the driver has a non-falsy catalog and a non-falsy stats list,
a forced reload happens iff some stat record's join key is absent from the
catalog and the catalog was not already freshly fetched
(`was_updated = false`); in that case the forced reload issues exactly one
extra remote catalog fetch, and when `was_updated = true` the total number
of remote catalog fetches of the run stays at one. -/
theorem forced_reload_iff (env : Env) (ss : List Stat) (m : List Card)
    (wu : Bool) (rf : Nat) (cw : List (List Card))
    (hs : env.stats = some ss) (hne : ss ≠ [])
    (h1 : get_card_data_and_map env false =
      { card_map := some m, was_updated := wu, remote_fetches := rf,
        cache_writes := cw })
    (hm : m ≠ []) :
    ((main env).forced_loads = 1 ↔
        (ss.any (fun t => !(map_mem m t.trinket_dbf_id)) = true ∧ wu = false))
    ∧ (ss.any (fun t => !(map_mem m t.trinket_dbf_id)) = true → wu = false →
        (main env).remote_fetches = rf + 1)
    ∧ (wu = true → (main env).remote_fetches = 1) := by
  have hwu1 : wu = true → rf = 1 := by
    intro hw
    have h2 := was_updated_imp_one_fetch env false (by rw [h1]; exact hw)
    rw [h1] at h2
    exact h2
  have hforced := forced_load_fetches_once env
  cases wu with
  | false =>
      cases hmiss : ss.any (fun t => !(map_mem m t.trinket_dbf_id)) with
      | false =>
          simp only [main, h1, hs]
          simp [List.isEmpty_eq_false.mpr hm,
            List.isEmpty_eq_false.mpr hne, hmiss]
      | true =>
          cases hfal : falsy_map (get_card_data_and_map env true).card_map with
          | false =>
              simp only [main, h1, hs]
              simp [List.isEmpty_eq_false.mpr hm,
                List.isEmpty_eq_false.mpr hne, hmiss, hfal, hforced]
          | true =>
              simp only [main, h1, hs]
              simp [List.isEmpty_eq_false.mpr hm,
                List.isEmpty_eq_false.mpr hne, hmiss, hfal, hforced]
  | true =>
      simp only [main, h1, hs]
      simp [List.isEmpty_eq_false.mpr hm,
        List.isEmpty_eq_false.mpr hne, hwu1 rfl]

/-- Environment where the cached catalog lacks the stat record's join key
but the remote catalog has it: the forced-reload trigger fires. -/
def envForce : Env :=
  { cache := CacheState.valid [cardThing]
    remote := some [cardThing, cardOther]
    stats := some [statOther] }

/-- C1 witness: at `envForce` the first load is a cache hit
(`was_updated = false`, zero fetches), the join key `200` is missing, and
the run performs the forced reload with exactly one remote fetch. -/
theorem forced_reload_iff_witness :
    ((main envForce).forced_loads = 1 ↔
        ([statOther].any (fun t => !(map_mem [cardThing] t.trinket_dbf_id)) = true
          ∧ false = false))
    ∧ ([statOther].any (fun t => !(map_mem [cardThing] t.trinket_dbf_id)) = true →
        false = false → (main envForce).remote_fetches = 0 + 1)
    ∧ (false = true → (main envForce).remote_fetches = 1) :=
  forced_reload_iff envForce [statOther] [cardThing] false 0 [] rfl
    (by decide) (by decide) (by decide)

/-- C6: when the driver reaches the join (non-falsy first load, non-falsy
stats, and a non-falsy forced load if one is triggered), the run succeeds:
there is a final catalog `m` such that the output is the sorted transform of
the stats against `m`; every stat record whose join key is absent from `m`
is excluded from the output, and every matched record's transform is in the
output. -/
theorem join_miss_recovery (env : Env) (ss : List Stat)
    (hs : env.stats = some ss) (hne : ss ≠ [])
    (h1 : falsy_map (get_card_data_and_map env false).card_map = false)
    (h2 : falsy_map (get_card_data_and_map env true).card_map = false) :
    ∃ m out, (main env).outcome = Outcome.success out
      ∧ out = sort_trinkets (process_trinkets m ss)
      ∧ (∀ t ∈ ss, map_get m t.trinket_dbf_id = none →
          ∀ p ∈ out, p.dbf_id ≠ t.trinket_dbf_id)
      ∧ (∀ t ∈ ss, ∀ c, map_get m t.trinket_dbf_id = some c →
          combine c t ∈ out) := by
  have hgen : ∀ m : List Card,
      (∀ t ∈ ss, map_get m t.trinket_dbf_id = none →
        ∀ p ∈ sort_trinkets (process_trinkets m ss),
          p.dbf_id ≠ t.trinket_dbf_id)
      ∧ (∀ t ∈ ss, ∀ c, map_get m t.trinket_dbf_id = some c →
        combine c t ∈ sort_trinkets (process_trinkets m ss)) := by
    intro m
    constructor
    · intro t ht hnone p hp heq
      rw [mem_sort_trinkets] at hp
      obtain ⟨u, hu, c, hc, rfl⟩ := (mem_process_trinkets m ss p).mp hp
      have hid : u.trinket_dbf_id = t.trinket_dbf_id := heq
      rw [hid, hnone] at hc
      exact Option.noConfusion hc
    · intro t ht c hc
      rw [mem_sort_trinkets]
      exact (mem_process_trinkets m ss _).mpr ⟨t, ht, c, hc, rfl⟩
  simp only [main, hs]
  simp only [h1, List.isEmpty_eq_false.mpr hne, Bool.false_eq_true, if_false,
    ite_false]
  split
  · rw [if_neg (by rw [h2]; exact Bool.false_ne_true)]
    exact ⟨_, _, rfl, rfl, (hgen _).1, (hgen _).2⟩
  · exact ⟨_, _, rfl, rfl, (hgen _).1, (hgen _).2⟩

/-- Environment where one stat record (`statGhost`, key `999`) matches no
catalog entry even after the forced refresh, while `statThing` matches. -/
def envGhost : Env :=
  { cache := CacheState.valid [cardThing]
    remote := some [cardThing]
    stats := some [statThing, statGhost] }

/-- C6 witness: at `envGhost` the run still succeeds; the unmatched record
is excluded and the matched one is processed. -/
theorem join_miss_recovery_witness :
    ∃ m out, (main envGhost).outcome = Outcome.success out
      ∧ out = sort_trinkets (process_trinkets m [statThing, statGhost])
      ∧ (∀ t ∈ [statThing, statGhost], map_get m t.trinket_dbf_id = none →
          ∀ p ∈ out, p.dbf_id ≠ t.trinket_dbf_id)
      ∧ (∀ t ∈ [statThing, statGhost], ∀ c,
          map_get m t.trinket_dbf_id = some c → combine c t ∈ out) :=
  join_miss_recovery envGhost [statThing, statGhost] rfl (by decide)
    (by decide) (by decide)

/-- C8: every successful run's output sequence is sorted ascending
(non-decreasing) by `avg_placement`. -/
theorem output_sorted (env : Env) (out : List ProcessedTrinket)
    (h : (main env).outcome = Outcome.success out) :
    out.Pairwise by_avg := by
  simp only [main] at h
  repeat' split at h
  all_goals simp at h
  all_goals subst h
  all_goals exact sort_trinkets_sorted _

/-- C8 witness: the end-to-end environment yields the singleton output,
which is sorted. -/
theorem output_sorted_witness :
    (main envBase).outcome = Outcome.success [combine cardThing statThing]
    ∧ ([combine cardThing statThing]).Pairwise by_avg :=
  ⟨by decide, output_sorted envBase [combine cardThing statThing] (by decide)⟩

/-- C9: the pipeline is deterministic — two runs over identical upstream
data (cache blob, remote catalog payload, stats payload, in the same order)
produce identical results: same outcome with the same output sequence
(order and formatted fields included) and the same effect log, hence
byte-identical serialized processed data, serialization being a function of
this value. -/
theorem pipeline_deterministic (env1 env2 : Env) (h : env1 = env2) :
    main env1 = main env2 := by
  rw [h]

/-- C9 witness: the end-to-end environment run twice. -/
theorem pipeline_deterministic_witness : main envBase = main envBase :=
  pipeline_deterministic envBase envBase rfl

/-- C10: the driver tests falsiness, not only `None`: an empty catalog map
(`some []`, e.g. the remote returned an empty array or no record had a
`dbfId`) aborts with the same outcome as a failed catalog fetch (`none`),
and an empty stats list aborts with the same outcome as a failed stats
fetch. -/
theorem falsy_empty_aborts (env : Env) :
    (((get_card_data_and_map env false).card_map = some [] ∨
        (get_card_data_and_map env false).card_map = none) →
      (main env).outcome = Outcome.card_fetch_failed)
    ∧ (falsy_map (get_card_data_and_map env false).card_map = false →
        (env.stats = some [] ∨ env.stats = none) →
      (main env).outcome = Outcome.stats_fetch_failed) := by
  constructor
  · intro h
    have hf : falsy_map (get_card_data_and_map env false).card_map = true := by
      rcases h with h | h <;> rw [h] <;> rfl
    simp [main, hf]
  · intro h1 hstats
    rcases hstats with h | h <;> simp [main, h1, h]

/-- Environment whose remote catalog has only a record without `dbfId`: the
built map is the empty dict, which is falsy. -/
def envNoDbf : Env :=
  { cache := CacheState.absent
    remote := some [cardNoDbf]
    stats := some [statThing] }

/-- Environment whose stats fetch returns an empty list. -/
def envEmptyStats : Env :=
  { cache := CacheState.valid [cardThing]
    remote := none
    stats := some ([] : List Stat) }

/-- C10 witness: an empty catalog map aborts like a failed catalog fetch,
and an empty stats list aborts like a failed stats fetch. -/
theorem falsy_empty_aborts_witness :
    (main envNoDbf).outcome = Outcome.card_fetch_failed
    ∧ (main envEmptyStats).outcome = Outcome.stats_fetch_failed :=
  ⟨(falsy_empty_aborts envNoDbf).1 (Or.inl (by decide)),
    (falsy_empty_aborts envEmptyStats).2 (by decide) (Or.inl rfl)⟩

end HS
